import Mathlib

/-
Shallow embedding of the job-store, pipeline-executor and reconciliation-loop
code of the celebxplain repository (server/utils/db.py, server/tasks/job_tasks.py,
server/services/job_service.py, server/twitter_bot/bot_logic.py).

Timestamps are modelled by a per-store logical clock (a Nat) that every
row-writing operation stamps and then increments, so every persisted
JobStatusUpdate carries a distinct, strictly increasing created_at value.
SQLite commits are modelled by each store operation being a single
state-transformer: the job mutation and the appended update row of one call
appear together, atomically, in the resulting store.
-/

namespace CelebX

/-- Row of the jobs table (db.py init_db). -/
structure JobRow where
  id : String
  persona_id : String
  query : String
  status : String
  created_at : Nat
  completed_at : Option Nat
  result_url : Option String
  error : Option String
  original_tweet_id : Option String
  original_tweet_author_id : Option String
  reply_posted : Bool
deriving Repr, DecidableEq

/-- Row of the job_updates table (db.py init_db). -/
structure JobUpdate where
  job_id : String
  status : String
  message : String
  created_at : Nat
deriving Repr, DecidableEq

/-- The SQLite database: both tables, plus the logical clock used to stamp
created_at values. -/
structure Store where
  jobs : List JobRow
  updates : List JobUpdate
  clock : Nat
deriving Repr, DecidableEq

/-- Freshly initialised database (init_db creates the two empty tables). -/
def initStore : Store := ⟨[], [], 0⟩

/-- db.py create_job: INSERT the job row (status "created") and the initial
job_updates row, in one commit.  The id column is the PRIMARY KEY, so an
INSERT with an existing id raises an IntegrityError and nothing is committed;
that is the Except.error case.  There is no uniqueness constraint on
original_tweet_id. -/
def create_job (job_id persona_id query : String)
    (original_tweet_id original_tweet_author_id : Option String)
    (s : Store) : Except String Store :=
  if s.jobs.any (fun j => j.id == job_id) then
    Except.error "UNIQUE constraint failed: jobs.id"
  else
    Except.ok
      { jobs := s.jobs ++
          [⟨job_id, persona_id, query, "created", s.clock, none, none, none,
            original_tweet_id, original_tweet_author_id, false⟩],
        updates := s.updates ++
          [⟨job_id, "created",
            "Job created for persona " ++ persona_id ++ " explaining " ++ query,
            s.clock⟩],
        clock := s.clock + 1 }

/-- db.py update_job_status: UPDATE the job row (the SQL chosen depends on the
status argument, each with WHERE id = job_id) and INSERT a job_updates row, in
one commit.  A completed update also sets completed_at and result_url; an
error update also sets the error column; any other status touches only the
status column.  No check that the job exists is made. -/
def update_job_status (job_id status : String)
    (message result_url error : Option String) (s : Store) : Store :=
  let jobs :=
    if status = "completed" then
      s.jobs.map (fun j =>
        if j.id = job_id then
          { j with status := status, completed_at := some s.clock,
                   result_url := result_url }
        else j)
    else if status = "error" then
      s.jobs.map (fun j =>
        if j.id = job_id then { j with status := status, error := error } else j)
    else
      s.jobs.map (fun j =>
        if j.id = job_id then { j with status := status } else j)
  let update_message := message.getD ("Status changed to " ++ status)
  { jobs := jobs,
    updates := s.updates ++ [⟨job_id, status, update_message, s.clock⟩],
    clock := s.clock + 1 }

/-- db.py mark_job_reply_posted: UPDATE jobs SET reply_posted = 1 WHERE id = ?,
returning cursor.rowcount > 0.  The sqlite3 rowcount counts every row matched
by the WHERE clause of the UPDATE, including rows whose stored value was
already 1, so the returned Bool reports row existence, not a transition. -/
def mark_job_reply_posted (job_id : String) (s : Store) : Store × Bool :=
  ({ s with jobs := s.jobs.map (fun j =>
      if j.id = job_id then { j with reply_posted := true } else j) },
   (s.jobs.countP (fun j => j.id == job_id)) != 0)

/-- db.py get_pending_twitter_replies: SELECT ... FROM jobs WHERE
original_tweet_id IS NOT NULL AND (status = completed OR status = error)
AND reply_posted = 0.  The code projects a subset of columns of exactly these
rows; we return the rows themselves. -/
def get_pending_twitter_replies (s : Store) : List JobRow :=
  s.jobs.filter (fun j =>
    j.original_tweet_id.isSome &&
    (j.status == "completed" || j.status == "error") &&
    !j.reply_posted)

/-- db.py get_job_by_tweet_id: SELECT * FROM jobs WHERE original_tweet_id = ?
LIMIT 1. -/
def get_job_by_tweet_id (tweet_id : String) (s : Store) : Option JobRow :=
  s.jobs.find? (fun j => j.original_tweet_id == some tweet_id)

/-- A store mutation performed through db.py.  createJob swallows the
IntegrityError (leaving the store unchanged) so that operation lists are
total; the Except result of create_job itself is examined where a claim
depends on it. -/
inductive Op where
  | createJob (job_id persona_id query : String)
      (original_tweet_id original_tweet_author_id : Option String)
  | updateStatus (job_id status : String)
      (message result_url error : Option String)
  | markReply (job_id : String)
deriving Repr, DecidableEq

def applyOp (s : Store) : Op → Store
  | Op.createJob a b c d e =>
      match create_job a b c d e s with
      | Except.ok s2 => s2
      | Except.error _ => s
  | Op.updateStatus a b m r e => update_job_status a b m r e s
  | Op.markReply a => (mark_job_reply_posted a s).1

def runOps (s : Store) (ops : List Op) : Store := ops.foldl applyOp s

/-- Fold step selecting, among the updates of a given job, the one with the
greatest created_at (later entries win ties). -/
def latestStep (job_id : String) (acc : Option JobUpdate) (u : JobUpdate) :
    Option JobUpdate :=
  if u.job_id = job_id then
    match acc with
    | none => some u
    | some v => if v.created_at ≤ u.created_at then some u else some v
  else acc

/-- The JobStatusUpdate row of the given job with the greatest created_at. -/
def latestUpdateIn (l : List JobUpdate) (job_id : String) : Option JobUpdate :=
  l.foldl (latestStep job_id) none

def latestUpdate? (s : Store) (job_id : String) : Option JobUpdate :=
  latestUpdateIn s.updates job_id

/-- Status of the most recently inserted update row of the store. -/
def lastUpdateStatus (s : Store) : Option String :=
  s.updates.getLast?.map (fun u => u.status)

/-- Outcomes of the five externally-fulfilled stage calls, given as inputs to
the executor: Except.ok is a returned value, Except.error an exception message
(str(e)).  speech returns the pair (speech_file, transcription). -/
structure StageOutcomes where
  explanation : Except String String
  speech : Except String (String × String)
  celebVideo : Except String String
  visuals : Except String String
  compose : Except String String
deriving Repr

/-- The dict returned by job_tasks.process_job on success. -/
structure ProcessReturn where
  speech_file : String
  transcription : String
  celeb_video : String
  visuals : String
  final_video : String
  result_url : String
deriving Repr, DecidableEq

def exceptIsOk {α : Type} : Except String α → Bool
  | Except.ok _ => true
  | Except.error _ => false

/-- job_tasks.process_job (the celery worker).  Mirrors the Python control
flow: the body runs stage by stage, each success followed by a processing
update; any stage exception is caught once at the bottom, recorded as an
error update, and then re-raised (the trailing raise statement), which is the
Except.error component of the result.  The join of the two concurrent stages
awaits celeb_task first, then visuals_task, so a celeb failure is observed
before the visuals outcome.  The final Bool records whether
assemble_final_video was invoked.  The completed update passes no result_url
argument (the Python call omits it, so the column is set to NULL); the
computed result_path travels only in the returned dict. -/
def processJob (job_id : String) (o : StageOutcomes) (s : Store) :
    Store × Except String ProcessReturn × Bool :=
  match o.explanation with
  | Except.error e =>
      (update_job_status job_id "error" (some ("Processing error: " ++ e)) none (some e) s,
       Except.error e, false)
  | Except.ok _explanation =>
    let s1 := update_job_status job_id "processing" (some "Generated explanation content") none none s
    match o.speech with
    | Except.error e =>
        (update_job_status job_id "error" (some ("Processing error: " ++ e)) none (some e) s1,
         Except.error e, false)
    | Except.ok sp =>
      let speech_file := sp.1
      let transcription := sp.2
      let s2 := update_job_status job_id "processing" (some "Generated speech") none none s1
      let s3 := update_job_status job_id "processing" (some "Generating visuals content") none none s2
      match o.celebVideo with
      | Except.error e =>
          (update_job_status job_id "error" (some ("Processing error: " ++ e)) none (some e) s3,
           Except.error e, false)
      | Except.ok celeb_video =>
        match o.visuals with
        | Except.error e =>
            (update_job_status job_id "error" (some ("Processing error: " ++ e)) none (some e) s3,
             Except.error e, false)
        | Except.ok visual_elements =>
          let s4 := update_job_status job_id "processing" (some "Generated visuals") none none s3
          let s5 := update_job_status job_id "processing" (some "Assembling final video") none none s4
          match o.compose with
          | Except.error e =>
              (update_job_status job_id "error" (some ("Processing error: " ++ e)) none (some e) s5,
               Except.error e, true)
          | Except.ok output_path =>
            let result_path := "/api/jobs/" ++ job_id ++ "/video"
            let s6 := update_job_status job_id "completed" (some "Video generated successfully") none none s5
            (s6, Except.ok ⟨speech_file, transcription, celeb_video, visual_elements,
                            output_path, result_path⟩, true)

/-- Message of the first stage exception hit by either executor, in the shared
evaluation order explanation, speech, celeb video, visuals, compose. -/
def firstStageError (o : StageOutcomes) : Option String :=
  match o.explanation with
  | Except.error e => some e
  | Except.ok _ =>
    match o.speech with
    | Except.error e => some e
    | Except.ok _ =>
      match o.celebVideo with
      | Except.error e => some e
      | Except.ok _ =>
        match o.visuals with
        | Except.error e => some e
        | Except.ok _ =>
          match o.compose with
          | Except.error e => some e
          | Except.ok _ => none

/-- job_service._process_job (the thread-based executor reached from the HTTP
route).  It writes a fine-grained stage string into the status column before
and after every stage, catches any stage exception into a single error
update, and returns normally in every case (it is a plain function returning
None, so this embedding returns only the resulting store). -/
def processJobService (job_id : String) (o : StageOutcomes) (s : Store) : Store :=
  let errStore := fun (s0 : Store) (e : String) =>
    update_job_status job_id "error" (some ("Processing error: " ++ e)) none (some e) s0
  let s1 := update_job_status job_id "generating_explanation" (some "Creating explanation script...") none none s
  match o.explanation with
  | Except.error e => errStore s1 e
  | Except.ok _ =>
    let s2 := update_job_status job_id "explanation_ready" (some "Explanation script completed") none none s1
    let s3 := update_job_status job_id "creating_audio" (some "Converting to speech...") none none s2
    match o.speech with
    | Except.error e => errStore s3 e
    | Except.ok _ =>
      let s4 := update_job_status job_id "audio_ready" (some "Voice generation complete") none none s3
      let s5 := update_job_status job_id "creating_media" (some "Generating video and visuals...") none none s4
      match o.celebVideo with
      | Except.error e => errStore s5 e
      | Except.ok _ =>
        let s6 := update_job_status job_id "celeb_video_ready" (some "Celebrity video created") none none s5
        match o.visuals with
        | Except.error e => errStore s6 e
        | Except.ok _ =>
          let s7 := update_job_status job_id "visuals_ready" (some "Supporting visuals created") none none s6
          let s8 := update_job_status job_id "compositing" (some "Creating final video...") none none s7
          match o.compose with
          | Except.error e => errStore s8 e
          | Except.ok _ =>
            update_job_status job_id "completed" (some "Celebrity explanation video ready!")
              (some ("/api/jobs/" ++ job_id ++ "/video")) none s8

/-- Mention tweet as seen by bot_logic.handle_mention. -/
structure Tweet where
  id : String
  text : String
  author_id : String
deriving Repr, DecidableEq

/-- bot_logic.handle_mention, restricted to its effect on the job store.  The
parse argument is the outcome of request_parser.parse_tweet: none collapses
the branches that return without any store write (personas not loaded, parse
error, missing topic or persona id); some (topic, persona_id) is a parsed
request.  job_id stands for the generated uuid4 and dispatchOk for whether
celery_app.send_task succeeded.  The first step checks get_job_by_tweet_id
and returns without creating anything when a job for this tweet already
exists; a database exception from create_job is caught and the handler
returns. -/
def handleMention (tweet : Tweet) (job_id : String)
    (parse : Option (String × String)) (dispatchOk : Bool) (s : Store) : Store :=
  match get_job_by_tweet_id tweet.id s with
  | some _ => s
  | none =>
    match parse with
    | none => s
    | some tp =>
      let topic := tp.1
      let persona_id := tp.2
      match create_job job_id persona_id topic (some tweet.id) (some tweet.author_id) s with
      | Except.error _ => s
      | Except.ok s2 =>
        if dispatchOk then
          update_job_status job_id "processing" (some "Task sent to Celery for processing.") none none s2
        else
          update_job_status job_id "error"
            (some "Celery dispatch failed: send_task raised") none
            (some "Celery dispatch failed: send_task raised") s2

/-- Entry of bot_logic.active_jobs_cache for one job, restricted to the two
fields the reply loop reads and writes. -/
structure CacheEntry where
  reply_attempted_this_session : Bool
  reply_attempts_in_session : Nat
deriving Repr, DecidableEq

/-- State of one twitter-bot process: the shared database plus the in-memory
active_jobs_cache. -/
structure BotState where
  store : Store
  cache : List (String × CacheEntry)
deriving Repr, DecidableEq

def cacheGet (c : List (String × CacheEntry)) (job_id : String) : Option CacheEntry :=
  (c.find? (fun p => p.1 == job_id)).map Prod.snd

def cacheSet (c : List (String × CacheEntry)) (job_id : String) (e : CacheEntry) :
    List (String × CacheEntry) :=
  if c.any (fun p => p.1 == job_id) then
    c.map (fun p => if p.1 == job_id then (job_id, e) else p)
  else c ++ [(job_id, e)]

/-- Part-1 skip test of poll_job_statuses: a pending job is skipped when its
cache entry says a reply was already attempted this session. -/
def attemptedThisSession (c : List (String × CacheEntry)) (job_id : String) : Bool :=
  match cacheGet c job_id with
  | some e => e.reply_attempted_this_session
  | none => false

/-- Part 2 of a poll_job_statuses cycle for one job picked up in part 1.  The
details dict built in part 1 always carries reply_attempts_in_session = 0
(bot_logic.py line 221), so the count read here is 0 regardless of the cache
value that part 1 overwrote.  Both the completed and the error branch make
exactly one twitter_client.post_reply call, whose success is the deliver
oracle; on success mark_job_reply_posted commits the durable flag, on failure
the cache count becomes 0 + 1 and the session stops only if that reaches M. -/
def processReplyJob (M : Nat) (deliver : String → Bool)
    (acc : Store × List (String × CacheEntry) × List String) (j : JobRow) :
    Store × List (String × CacheEntry) × List String :=
  let store := acc.1
  let cache := acc.2.1
  let calls := acc.2.2
  let attempts := 0
  if M ≤ attempts then
    (store, cacheSet cache j.id ⟨true, attempts⟩, calls)
  else
    let calls2 := calls ++ [j.id]
    if deliver j.id then
      ((mark_job_reply_posted j.id store).1, cacheSet cache j.id ⟨true, attempts⟩, calls2)
    else
      let newCount := attempts + 1
      if M ≤ newCount then
        (store, cacheSet cache j.id ⟨true, newCount⟩, calls2)
      else
        (store, cacheSet cache j.id ⟨false, newCount⟩, calls2)

/-- One cycle of bot_logic.poll_job_statuses.  Part 1 queries
get_pending_twitter_replies, drops jobs whose cache entry is already marked
reply_attempted_this_session, and overwrites every remaining job's cache
entry with the freshly built details (attempted = false, attempts = 0).
Part 2 runs the reply attempt for each such job.  The returned list holds one
element per twitter_client.post_reply call made, tagged with the job id. -/
def pollCycle (M : Nat) (deliver : String → Bool) (st : BotState) :
    BotState × List String :=
  let toProcess := (get_pending_twitter_replies st.store).filter
    (fun j => !(attemptedThisSession st.cache j.id))
  let cache1 := toProcess.foldl (fun c j => cacheSet c j.id ⟨false, 0⟩) st.cache
  let r := toProcess.foldl (processReplyJob M deliver) (st.store, cache1, [])
  (⟨r.1, r.2.1⟩, r.2.2)

/-- Runs n consecutive poll_job_statuses cycles within one process lifetime,
concatenating the post_reply calls they make. -/
def runPoll (M : Nat) (deliver : String → Bool) : Nat → BotState → BotState × List String
  | 0, st => (st, [])
  | n + 1, st =>
    let r := pollCycle M deliver st
    let r2 := runPoll M deliver n r.1
    (r2.1, r.2 ++ r2.2)

/-- The closed status enum of spec section 3. -/
def statusEnum : List String := ["created", "processing", "completed", "error"]

/-- Store holding one freshly created twitter-originated job j1. -/
def sampleStore : Store :=
  runOps initStore [Op.createJob "j1" "p1" "q1" (some "42") (some "a1")]

/-- Store holding job j1 after its pipeline run failed with "boom". -/
def errStore : Store :=
  runOps initStore
    [Op.createJob "j1" "p1" "q1" (some "42") (some "a1"),
     Op.updateStatus "j1" "error" none none (some "boom")]

/-- Stage outcomes of a run in which every stage succeeds. -/
def okOutcomes : StageOutcomes :=
  ⟨Except.ok "expl", Except.ok ("speech.mp3", "transcript"),
   Except.ok "celeb.mp4", Except.ok "visuals.json", Except.ok "final.mp4"⟩

/-- Stage outcomes of a run whose first stage raises "boom". -/
def failExplanation : StageOutcomes :=
  ⟨Except.error "boom", Except.ok ("speech.mp3", "transcript"),
   Except.ok "celeb.mp4", Except.ok "visuals.json", Except.ok "final.mp4"⟩

/-- Stage outcomes of a run in which the persona-video branch fails while the
visuals branch succeeds. -/
def celebFail : StageOutcomes :=
  ⟨Except.ok "expl", Except.ok ("speech.mp3", "transcript"),
   Except.error "render failed", Except.ok "visuals.json", Except.ok "final.mp4"⟩

/-- A job with the given id exists in the table and every row with that id
has reply_posted already set. -/
def RepliedIn (l : List JobRow) (id : String) : Prop :=
  (∃ j ∈ l, j.id = id) ∧ ∀ j ∈ l, j.id = id → j.reply_posted = true

/-- Invariant of reachable stores: every persisted update is stamped strictly
below the clock, and every job row's status column agrees with the status of
that job's JobStatusUpdate with the greatest created_at. -/
def StoreInv (s : Store) : Prop :=
  (∀ u ∈ s.updates, u.created_at < s.clock) ∧
  ∀ j ∈ s.jobs, (latestUpdate? s j.id).map (fun u => u.status) = some j.status

end CelebX

namespace CelebX

/-- Helper: dropping the length of the left summand of an append. -/
theorem drop_len_append {α : Type} (l1 l2 : List α) :
    (l1 ++ l2).drop l1.length = l2 := List.drop_left l1 l2

/-- Helper: a map that rewrites only rows with a given id is the identity on a
list that contains no such row. -/
theorem map_untouched (l : List JobRow) (job_id : String) (f : JobRow → JobRow)
    (h : ∀ j ∈ l, j.id ≠ job_id) :
    l.map (fun j => if j.id = job_id then f j else j) = l := by
  induction l with
  | nil => rfl
  | cons x xs ih =>
    have hx : x.id ≠ job_id := h x (List.mem_cons_self x xs)
    simp only [List.map_cons, if_neg hx, List.cons.injEq, true_and]
    exact ih (fun j hj => h j (List.mem_cons_of_mem x hj))

/-- Helper: every row matching the WHERE clause of update_job_status carries
the written status afterwards. -/
theorem update_status_sets_matching (job_id status : String)
    (message result_url error : Option String) (s : Store) :
    ∀ j ∈ (update_job_status job_id status message result_url error s).jobs,
      j.id = job_id → j.status = status := by
  intro j hj hid
  simp only [update_job_status] at hj
  split at hj <;> (try split at hj) <;>
  · obtain ⟨j0, _, rfl⟩ := List.mem_map.mp hj
    by_cases hc : j0.id = job_id
    · simp [hc]
    · simp only [if_neg hc] at hid ⊢
      exact absurd hid hc

/-- C1: bot_logic.poll_job_statuses does not bound twitter_client.post_reply
calls per job by MAX_REPLY_ATTEMPTS_PER_SESSION.  Part 1 of every cycle
rebuilds the details and cache entry of each still-pending job with
reply_attempts_in_session reset to 0 (bot_logic.py lines 220-229), so with
the default M = 2 a job whose delivery keeps failing is attempted once per
cycle indefinitely: three cycles over a single errored twitter job already
make three post_reply calls, exceeding the claimed bound of two. -/
theorem poll_delivery_exceeds_session_bound :
    ((runPoll 2 (fun _ => false) 3 ⟨errStore, []⟩).2.count "j1") = 3 ∧ 2 < 3 := by
  constructor
  · rfl
  · decide

/-- C2 counterexample: on a store holding job j1, the second
mark_job_reply_posted call does not return false — sqlite3 rowcount counts
the matched row even though reply_posted was already 1, so the call reports
true again. -/
theorem mark_reply_second_call_not_false :
    ¬ ((mark_job_reply_posted "j1" (mark_job_reply_posted "j1" sampleStore).1).2 = false) := by
  decide

/-- C3 counterexample: the store-level create_job accepts a second job with
an origin reference that is already used — inserting job j2 with the same
original_tweet_id "42" as existing job j1 succeeds and leaves two rows with
that origin reference. -/
theorem create_job_accepts_duplicate_origin :
    exceptIsOk (create_job "j2" "p2" "q2" (some "42") (some "a2") sampleStore) = true ∧
    (runOps sampleStore [Op.createJob "j2" "p2" "q2" (some "42") (some "a2")]).jobs.countP
      (fun j => j.original_tweet_id == some "42") = 2 := by
  constructor
  · rfl
  · rfl

/-- C4: a fully successful run of the celery executor job_tasks.process_job
leaves the job completed with a NULL result_url — the completed
update_job_status call omits the result_url argument, so the column is set to
NULL while the computed result path is only placed in the returned dict. -/
theorem process_job_completed_null_result_url :
    ((processJob "j1" okOutcomes sampleStore).1.jobs.find? (fun j => j.id == "j1")).map
      (fun j => (j.status, j.result_url)) = some ("completed", none) := by
  rfl

/-- C5 counterexample: when the explanation stage raises, job_tasks.process_job
does not return normally — after recording the error status it re-raises the
stage exception (the trailing raise), so the returned outcome is not ok. -/
theorem process_job_reraises_stage_exception :
    ¬ (exceptIsOk (processJob "j1" failExplanation sampleStore).2.1 = true) := by
  decide

/-- C8 counterexample: the first statement of the thread-based executor
job_service._process_job writes the fine-grained string
"generating_explanation" into the jobs.status column, a value outside the
closed enum created/processing/completed/error. -/
theorem thread_executor_writes_nonenum_status :
    ((update_job_status "j1" "generating_explanation"
        (some "Creating explanation script...") none none sampleStore).jobs.map
      (fun j => statusEnum.contains j.status)) = [false] := by
  rfl

/-- C5 amended: any stage exception is caught by both executors and recorded
as a terminal error status; job_service._process_job then returns normally
(it is a store transformer), while the celery task job_tasks.process_job
re-raises the same exception to the task framework after recording it. -/
theorem stage_failure_recorded_then_reraised (job_id : String) (o : StageOutcomes)
    (s : Store) (e : String) (h : firstStageError o = some e) :
    (processJob job_id o s).2.1 = Except.error e ∧
    lastUpdateStatus (processJob job_id o s).1 = some "error" ∧
    lastUpdateStatus (processJobService job_id o s) = some "error" := by
  obtain ⟨ex, sp, cv, vi, co⟩ := o
  cases ex <;> cases sp <;> cases cv <;> cases vi <;> cases co <;>
    simp_all [firstStageError, processJob, processJobService, update_job_status,
      lastUpdateStatus, List.getLast?_concat]

/-- C5 amended witness at a concrete failing run. -/
theorem stage_failure_recorded_witness :
    firstStageError failExplanation = some "boom" ∧
    ((processJob "j2" failExplanation sampleStore).2.1 = Except.error "boom" ∧
     lastUpdateStatus (processJob "j2" failExplanation sampleStore).1 = some "error" ∧
     lastUpdateStatus (processJobService "j2" failExplanation sampleStore) = some "error") :=
  ⟨by decide, stage_failure_recorded_then_reraised "j2" failExplanation sampleStore "boom" (by decide)⟩

/-- C8 amended: the celery executor job_tasks.process_job writes only
enum statuses into the status column, as a single contiguous block of
"processing" entries closed by exactly one terminal "completed" or "error"
entry (so processing is never re-entered after a terminal status); the
fine-grained progress text travels in the message field.  The thread-based
job_service._process_job instead writes fine-grained stage strings into the
status column itself (see the C8 counterexample). -/
theorem celery_status_trace_shape (job_id : String) (o : StageOutcomes) (s : Store) :
    ∃ k t, (((processJob job_id o s).1.updates.drop s.updates.length).map
        (fun u => u.status)) = List.replicate k "processing" ++ [t] ∧
      (t = "completed" ∨ t = "error") := by
  obtain ⟨ex, sp, cv, vi, co⟩ := o
  cases ex with
  | error e =>
    exact ⟨0, "error", by simp [processJob, update_job_status, List.append_assoc,
      drop_len_append], Or.inr rfl⟩
  | ok a =>
    cases sp with
    | error e =>
      exact ⟨1, "error", by simp [processJob, update_job_status, List.append_assoc,
        drop_len_append], Or.inr rfl⟩
    | ok b =>
      cases cv with
      | error e =>
        exact ⟨3, "error", by simp [processJob, update_job_status, List.append_assoc,
          drop_len_append], Or.inr rfl⟩
      | ok c =>
        cases vi with
        | error e =>
          exact ⟨3, "error", by simp [processJob, update_job_status, List.append_assoc,
            drop_len_append], Or.inr rfl⟩
        | ok d =>
          cases co with
          | error e =>
            exact ⟨5, "error", by simp [processJob, update_job_status, List.append_assoc,
              drop_len_append], Or.inr rfl⟩
          | ok f =>
            exact ⟨5, "completed", by simp [processJob, update_job_status, List.append_assoc,
              drop_len_append], Or.inl rfl⟩

/-- C6: when the explanation and speech stages succeed and exactly one of the
two concurrently-run branch stages (persona video, explanatory visuals)
fails, the join of job_tasks.process_job observes the failure: composition is
never invoked, the worker outcome is the re-raised branch exception, the last
persisted status is the terminal "error", every row of this job ends in
status "error", and no "completed" update is ever appended by the run. -/
theorem single_branch_failure_means_error (job_id : String) (o : StageOutcomes)
    (s : Store)
    (h1 : exceptIsOk o.explanation = true) (h2 : exceptIsOk o.speech = true)
    (h3 : exceptIsOk o.celebVideo ≠ exceptIsOk o.visuals) :
    (processJob job_id o s).2.2 = false ∧
    exceptIsOk (processJob job_id o s).2.1 = false ∧
    lastUpdateStatus (processJob job_id o s).1 = some "error" ∧
    (∀ j ∈ (processJob job_id o s).1.jobs, j.id = job_id → j.status = "error") ∧
    (∀ u ∈ (processJob job_id o s).1.updates, u.status = "completed" → u ∈ s.updates) := by
  obtain ⟨ex, sp, cv, vi, co⟩ := o
  cases ex with
  | error e => simp [exceptIsOk] at h1
  | ok a =>
  cases sp with
  | error e => simp [exceptIsOk] at h2
  | ok b =>
  cases cv with
  | error e =>
    cases vi with
    | error e2 => simp [exceptIsOk] at h3
    | ok d =>
      refine ⟨rfl, rfl, ?_, ?_, ?_⟩
      · simp [processJob, update_job_status, lastUpdateStatus, List.getLast?_concat]
      · exact update_status_sets_matching job_id "error"
          (some ("Processing error: " ++ e)) none (some e) _
      · intro u hu hcomp
        simp only [processJob, update_job_status, List.append_assoc, List.cons_append,
          List.nil_append, List.mem_append, List.mem_cons, List.not_mem_nil, or_false] at hu
        rcases hu with hu | rfl | rfl | rfl | rfl
        · exact hu
        all_goals simp at hcomp
  | ok c =>
    cases vi with
    | ok d => simp [exceptIsOk] at h3
    | error e =>
      refine ⟨rfl, rfl, ?_, ?_, ?_⟩
      · simp [processJob, update_job_status, lastUpdateStatus, List.getLast?_concat]
      · exact update_status_sets_matching job_id "error"
          (some ("Processing error: " ++ e)) none (some e) _
      · intro u hu hcomp
        simp only [processJob, update_job_status, List.append_assoc, List.cons_append,
          List.nil_append, List.mem_append, List.mem_cons, List.not_mem_nil, or_false] at hu
        rcases hu with hu | rfl | rfl | rfl | rfl
        · exact hu
        all_goals simp at hcomp

/-- C6 witness: the persona-video branch fails with "render failed" while the
visuals branch succeeds, over a store holding job j1. -/
theorem single_branch_failure_witness :
    (exceptIsOk celebFail.explanation = true ∧ exceptIsOk celebFail.speech = true ∧
     exceptIsOk celebFail.celebVideo ≠ exceptIsOk celebFail.visuals) ∧
    ((processJob "j1" celebFail sampleStore).2.2 = false ∧
     exceptIsOk (processJob "j1" celebFail sampleStore).2.1 = false ∧
     lastUpdateStatus (processJob "j1" celebFail sampleStore).1 = some "error" ∧
     (∀ j ∈ (processJob "j1" celebFail sampleStore).1.jobs, j.id = "j1" → j.status = "error") ∧
     (∀ u ∈ (processJob "j1" celebFail sampleStore).1.updates,
        u.status = "completed" → u ∈ sampleStore.updates)) :=
  ⟨⟨by decide, by decide, by decide⟩,
   single_branch_failure_means_error "j1" celebFail sampleStore (by decide) (by decide) (by decide)⟩

/-- C2 amended: mark_job_reply_posted is idempotent on stored state (both
calls leave reply_posted true and the second call does not change the store),
but its return value reports whether a job row with the given id exists, not
whether this call performed the false-to-true transition: for an existing job
the first AND the second call both return true. -/
theorem mark_job_reply_posted_idempotent (s : Store) (id : String)
    (h : ∃ j ∈ s.jobs, j.id = id) :
    (mark_job_reply_posted id s).2 = true ∧
    (mark_job_reply_posted id (mark_job_reply_posted id s).1).2 = true ∧
    (mark_job_reply_posted id (mark_job_reply_posted id s).1).1 =
      (mark_job_reply_posted id s).1 ∧
    ∀ j ∈ (mark_job_reply_posted id s).1.jobs, j.id = id → j.reply_posted = true := by
  obtain ⟨j, hj, hid⟩ := h
  have hpos : 0 < s.jobs.countP (fun j => j.id == id) :=
    List.countP_pos_iff.mpr ⟨j, hj, by simp [hid]⟩
  refine ⟨?_, ?_, ?_, ?_⟩
  · simp only [mark_job_reply_posted, bne_iff_ne, ne_eq, decide_not]
    simp [Nat.pos_iff_ne_zero.mp hpos]
  · simp only [mark_job_reply_posted, List.countP_map, bne_iff_ne, ne_eq, decide_not]
    have hsame : s.jobs.countP ((fun j => j.id == id) ∘
        (fun j => if j.id = id then { j with reply_posted := true } else j)) =
        s.jobs.countP (fun j => j.id == id) := by
      apply List.countP_congr
      intro x _
      by_cases hc : x.id = id <;> simp [hc]
    rw [hsame]
    simp [Nat.pos_iff_ne_zero.mp hpos]
  · simp only [mark_job_reply_posted, Store.mk.injEq, List.map_map, and_true]
    apply List.map_congr_left
    intro x _
    by_cases hc : x.id = id <;> simp [hc]
  · intro j2 hj2 hid2
    simp only [mark_job_reply_posted] at hj2
    obtain ⟨j0, _, rfl⟩ := List.mem_map.mp hj2
    by_cases hc : j0.id = id
    · simp [hc]
    · simp only [if_neg hc] at hid2 ⊢
      exact absurd hid2 hc

/-- C2 amended witness on the store holding job j1. -/
theorem mark_job_reply_posted_idempotent_witness :
    (∃ j ∈ sampleStore.jobs, j.id = "j1") ∧
    ((mark_job_reply_posted "j1" sampleStore).2 = true ∧
     (mark_job_reply_posted "j1" (mark_job_reply_posted "j1" sampleStore).1).2 = true ∧
     (mark_job_reply_posted "j1" (mark_job_reply_posted "j1" sampleStore).1).1 =
       (mark_job_reply_posted "j1" sampleStore).1 ∧
     ∀ j ∈ (mark_job_reply_posted "j1" sampleStore).1.jobs,
       j.id = "j1" → j.reply_posted = true) :=
  ⟨by decide, mark_job_reply_posted_idempotent sampleStore "j1" (by decide)⟩

/-- C3 amended: duplicate-origin rejection is enforced at intake, not in the
store — bot_logic.handle_mention first looks the origin up with
get_job_by_tweet_id and, when a job for that tweet already exists, returns
without creating anything, leaving the store unchanged; the store-level
create_job itself accepts a duplicate origin reference (see the C3
counterexample). -/
theorem handle_mention_skips_existing_origin (t : Tweet) (job_id : String)
    (parse : Option (String × String)) (dispatchOk : Bool) (s : Store)
    (h : ∃ j ∈ s.jobs, j.original_tweet_id = some t.id) :
    handleMention t job_id parse dispatchOk s = s := by
  obtain ⟨j, hj, hot⟩ := h
  have hfind : (get_job_by_tweet_id t.id s).isSome = true := by
    unfold get_job_by_tweet_id
    exact List.find?_isSome.mpr ⟨j, hj, by simp [hot]⟩
  obtain ⟨x, hx⟩ := Option.isSome_iff_exists.mp hfind
  unfold handleMention
  rw [hx]

/-- C3 amended witness: a second mention of tweet 42, already carried by job
j1, leaves the store unchanged. -/
theorem handle_mention_skips_existing_origin_witness :
    (∃ j ∈ sampleStore.jobs, j.original_tweet_id = some "42") ∧
    handleMention ⟨"42", "explain q1 by p1", "a1"⟩ "j9" (some ("q1", "p1")) true sampleStore
      = sampleStore :=
  ⟨by decide, handle_mention_skips_existing_origin ⟨"42", "explain q1 by p1", "a1"⟩ "j9"
    (some ("q1", "p1")) true sampleStore (by decide)⟩

/-- C10: update_job_status called with a job_id that matches no job row
returns normally (it is a total store transformer), leaves the jobs table
unchanged, and still inserts a JobStatusUpdate row referencing the
nonexistent job. -/
theorem update_job_status_missing_job (job_id status : String)
    (message result_url error : Option String) (s : Store)
    (h : ∀ j ∈ s.jobs, j.id ≠ job_id) :
    (update_job_status job_id status message result_url error s).jobs = s.jobs ∧
    (update_job_status job_id status message result_url error s).updates =
      s.updates ++ [⟨job_id, status, message.getD ("Status changed to " ++ status), s.clock⟩] := by
  constructor
  · simp only [update_job_status]
    split
    · exact map_untouched s.jobs job_id _ h
    · split
      · exact map_untouched s.jobs job_id _ h
      · exact map_untouched s.jobs job_id _ h
  · rfl

/-- C10 witness: an update for the nonexistent job id "ghost" over the store
holding only j1. -/
theorem update_job_status_missing_job_witness :
    (∀ j ∈ sampleStore.jobs, j.id ≠ "ghost") ∧
    ((update_job_status "ghost" "processing" none none none sampleStore).jobs = sampleStore.jobs ∧
     (update_job_status "ghost" "processing" none none none sampleStore).updates =
       sampleStore.updates ++
         [⟨"ghost", "processing", (none : Option String).getD ("Status changed to " ++ "processing"),
           sampleStore.clock⟩]) :=
  ⟨by decide, update_job_status_missing_job "ghost" "processing" none none none sampleStore (by decide)⟩

/-- Helper: a row map that preserves ids and never clears reply_posted
preserves RepliedIn. -/
theorem repliedIn_map_preserve (l : List JobRow) (id : String) (f : JobRow → JobRow)
    (hid : ∀ j, (f j).id = j.id)
    (hrp : ∀ j, (f j).reply_posted = j.reply_posted ∨ (f j).reply_posted = true)
    (h : RepliedIn l id) : RepliedIn (l.map f) id := by
  obtain ⟨⟨j0, hj0, hid0⟩, hall⟩ := h
  constructor
  · exact ⟨f j0, List.mem_map_of_mem f hj0, by rw [hid j0]; exact hid0⟩
  · intro j hj hidj
    obtain ⟨j1, hj1, rfl⟩ := List.mem_map.mp hj
    have hj1id : j1.id = id := by rw [← hid j1]; exact hidj
    rcases hrp j1 with hr | hr
    · rw [hr]; exact hall j1 hj1 hj1id
    · exact hr

/-- Helper: mark_job_reply_posted establishes RepliedIn for an existing job. -/
theorem repliedIn_mark (s : Store) (id : String) (h : ∃ j ∈ s.jobs, j.id = id) :
    RepliedIn (mark_job_reply_posted id s).1.jobs id := by
  obtain ⟨j0, hj0, hid0⟩ := h
  simp only [mark_job_reply_posted]
  constructor
  · refine ⟨_, List.mem_map_of_mem _ hj0, ?_⟩
    simp [hid0]
  · intro j hj hidj
    obtain ⟨j1, hj1, rfl⟩ := List.mem_map.mp hj
    by_cases hc : j1.id = id
    · simp [hc]
    · simp only [if_neg hc] at hidj
      exact absurd hidj hc

/-- Helper: every db.py operation preserves RepliedIn — create_job cannot
re-insert the id (PRIMARY KEY), update_job_status never touches reply_posted,
and mark_job_reply_posted only sets it. -/
theorem repliedIn_applyOp (s : Store) (id : String) (op : Op)
    (h : RepliedIn s.jobs id) : RepliedIn (applyOp s op).jobs id := by
  cases op with
  | createJob a b c d e =>
    simp only [applyOp]
    split
    next s2 heq =>
      simp only [create_job] at heq
      split at heq
      · exact absurd heq (by simp)
      next hany =>
        obtain ⟨⟨j0, hj0, hid0⟩, hall⟩ := h
        have hne : a ≠ id := by
          intro hcontra
          subst hcontra
          exact hany (List.any_eq_true.mpr ⟨j0, hj0, by simp [hid0]⟩)
        injection heq with heq2
        subst heq2
        constructor
        · exact ⟨j0, List.mem_append_left _ hj0, hid0⟩
        · intro j hj hidj
          rcases List.mem_append.mp hj with hj | hj
          · exact hall j hj hidj
          · simp only [List.mem_singleton] at hj
            subst hj
            exact absurd hidj hne
    next => exact h
  | updateStatus a b m r e =>
    simp only [applyOp, update_job_status]
    split
    · exact repliedIn_map_preserve _ _ _
        (fun j => by by_cases hc : j.id = a <;> simp [hc])
        (fun j => Or.inl (by by_cases hc : j.id = a <;> simp [hc])) h
    · split
      · exact repliedIn_map_preserve _ _ _
          (fun j => by by_cases hc : j.id = a <;> simp [hc])
          (fun j => Or.inl (by by_cases hc : j.id = a <;> simp [hc])) h
      · exact repliedIn_map_preserve _ _ _
          (fun j => by by_cases hc : j.id = a <;> simp [hc])
          (fun j => Or.inl (by by_cases hc : j.id = a <;> simp [hc])) h
  | markReply a =>
    simp only [applyOp, mark_job_reply_posted]
    exact repliedIn_map_preserve _ _ _
      (fun j => by by_cases hc : j.id = a <;> simp [hc])
      (fun j => by by_cases hc : j.id = a <;> simp [hc]) h

/-- Helper: RepliedIn is preserved by any sequence of db.py operations. -/
theorem repliedIn_runOps (id : String) (ops : List Op) :
    ∀ s : Store, RepliedIn s.jobs id → RepliedIn (runOps s ops).jobs id := by
  induction ops with
  | nil => intro s h; simpa [runOps] using h
  | cons op rest ih =>
    intro s h
    simpa [runOps] using ih (applyOp s op) (repliedIn_applyOp s id op h)

/-- C9: get_pending_twitter_replies returns exactly the jobs whose
original_tweet_id is non-null, whose status is terminal (completed or error)
and whose reply_posted flag is false; and once mark_job_reply_posted has run
for an existing job, no later call — whatever db.py operations happen in
between — returns that job again. -/
theorem get_pending_twitter_replies_spec (s : Store) (id : String) (ops : List Op)
    (h : ∃ j ∈ s.jobs, j.id = id) :
    (∀ j : JobRow, j ∈ get_pending_twitter_replies s ↔
       (j ∈ s.jobs ∧ j.original_tweet_id ≠ none ∧
        (j.status = "completed" ∨ j.status = "error") ∧ j.reply_posted = false)) ∧
    (∀ j ∈ get_pending_twitter_replies (runOps (mark_job_reply_posted id s).1 ops),
       j.id ≠ id) := by
  constructor
  · intro j
    simp [get_pending_twitter_replies, List.mem_filter, Option.isSome_iff_ne_none,
      Bool.and_eq_true, Bool.or_eq_true, beq_iff_eq, Bool.not_eq_true', and_assoc]
  · intro j hj hidj
    have hrep : RepliedIn (runOps (mark_job_reply_posted id s).1 ops).jobs id :=
      repliedIn_runOps id ops _ (repliedIn_mark s id h)
    simp only [get_pending_twitter_replies] at hj
    obtain ⟨hmem, hpred⟩ := List.mem_filter.mp hj
    have hrp := hrep.2 j hmem hidj
    simp [hrp] at hpred

/-- C9 witness: job j1 of the errored store, marked as replied, then hit by a
further status update. -/
theorem get_pending_twitter_replies_spec_witness :
    (∃ j ∈ errStore.jobs, j.id = "j1") ∧
    ((∀ j : JobRow, j ∈ get_pending_twitter_replies errStore ↔
       (j ∈ errStore.jobs ∧ j.original_tweet_id ≠ none ∧
        (j.status = "completed" ∨ j.status = "error") ∧ j.reply_posted = false)) ∧
     (∀ j ∈ get_pending_twitter_replies
         (runOps (mark_job_reply_posted "j1" errStore).1
           [Op.updateStatus "j1" "error" none none (some "boom")]),
       j.id ≠ "j1")) :=
  ⟨by decide, get_pending_twitter_replies_spec errStore "j1"
    [Op.updateStatus "j1" "error" none none (some "boom")] (by decide)⟩

/-- Helper: one latestStep either keeps the accumulator or picks the new
update. -/
theorem latestStep_eq_or (id : String) (acc : Option JobUpdate) (u : JobUpdate) :
    latestStep id acc u = acc ∨ latestStep id acc u = some u := by
  cases acc with
  | none =>
    by_cases hc : u.job_id = id <;> simp [latestStep, hc]
  | some v =>
    by_cases hc : u.job_id = id
    · simp only [latestStep, if_pos hc]
      split <;> simp
    · simp [latestStep, hc]

/-- Helper: the value selected by the latest-update fold comes from the
accumulator or from the list. -/
theorem latest_mem_aux (id : String) :
    ∀ (l : List JobUpdate) (acc : Option JobUpdate) (v : JobUpdate),
      List.foldl (latestStep id) acc l = some v → acc = some v ∨ v ∈ l := by
  intro l
  induction l with
  | nil => intro acc v h; exact Or.inl h
  | cons u rest ih =>
    intro acc v h
    have h2 := ih (latestStep id acc u) v (by simpa using h)
    rcases h2 with h2 | h2
    · rcases latestStep_eq_or id acc u with he | he
      · left; rw [← he]; exact h2
      · right
        rw [he] at h2
        injection h2 with h3
        rw [← h3]
        exact List.mem_cons_self u rest
    · right; exact List.mem_cons_of_mem u h2

/-- Helper: appending an update stamped later than everything in the list
makes it the latest update of its job and leaves other jobs' latest update
unchanged. -/
theorem latestUpdateIn_append_fresh (l : List JobUpdate) (u : JobUpdate) (id : String)
    (hf : ∀ w ∈ l, w.created_at < u.created_at) :
    latestUpdateIn (l ++ [u]) id =
      if u.job_id = id then some u else latestUpdateIn l id := by
  unfold latestUpdateIn
  rw [List.foldl_append]
  simp only [List.foldl_cons, List.foldl_nil]
  by_cases hc : u.job_id = id
  · cases hacc : List.foldl (latestStep id) none l with
    | none => simp [latestStep, hc]
    | some v =>
      have hv : v ∈ l := by
        rcases latest_mem_aux id l none v hacc with h | h
        · exact absurd h (by simp)
        · exact h
      have hle : v.created_at ≤ u.created_at := le_of_lt (hf v hv)
      simp [latestStep, hc, hle]
  · simp [latestStep, hc]

/-- Helper: appending an update for one job and rewriting exactly that job's
rows to the update's status preserves the consistency invariant. -/
theorem inv_update_generic (s : Store) (jid st m : String) (f : JobRow → JobRow)
    (hid : ∀ j, (f j).id = j.id) (hst : ∀ j, (f j).status = st)
    (hinv : StoreInv s) :
    ∀ j ∈ s.jobs.map (fun j => if j.id = jid then f j else j),
      (latestUpdateIn (s.updates ++ [⟨jid, st, m, s.clock⟩]) j.id).map (fun u => u.status)
        = some j.status := by
  intro j hj
  obtain ⟨j0, hj0, rfl⟩ := List.mem_map.mp hj
  by_cases hc : j0.id = jid
  · rw [if_pos hc, hid j0, hst j0, hc]
    rw [latestUpdateIn_append_fresh s.updates ⟨jid, st, m, s.clock⟩ jid hinv.1]
    simp
  · simp only [if_neg hc]
    rw [latestUpdateIn_append_fresh s.updates ⟨jid, st, m, s.clock⟩ j0.id hinv.1]
    have hne : ¬ ((⟨jid, st, m, s.clock⟩ : JobUpdate).job_id = j0.id) := by
      simp only []
      exact fun hcontra => hc hcontra.symm
    rw [if_neg hne]
    exact hinv.2 j0 hj0

/-- Helper: the consistency invariant holds for the freshly initialised
database. -/
theorem storeInv_init : StoreInv initStore := by
  constructor
  · intro u hu
    simp [initStore] at hu
  · intro j hj
    simp [initStore] at hj

/-- Helper: every db.py operation preserves the consistency invariant —
create_job and update_job_status write the job row and its update in the same
commit with the same fresh timestamp, and mark_job_reply_posted touches
neither status nor updates. -/
theorem storeInv_applyOp (s : Store) (op : Op) (hinv : StoreInv s) :
    StoreInv (applyOp s op) := by
  cases op with
  | createJob a b c d e =>
    simp only [applyOp]
    split
    next s2 heq =>
      simp only [create_job] at heq
      split at heq
      · exact absurd heq (by simp)
      next hany =>
        have hne : ∀ j ∈ s.jobs, j.id ≠ a := by
          intro j hjmem hcontra
          exact hany (List.any_eq_true.mpr ⟨j, hjmem, by simp [hcontra]⟩)
        injection heq with heq2
        subst heq2
        constructor
        · intro u hu
          rcases List.mem_append.mp hu with hu | hu
          · exact Nat.lt_trans (hinv.1 u hu) (Nat.lt_succ_self _)
          · simp only [List.mem_singleton] at hu
            subst hu
            exact Nat.lt_succ_self _
        · intro j hj
          rcases List.mem_append.mp hj with hj | hj
          · simp only [latestUpdate?]
            rw [latestUpdateIn_append_fresh s.updates _ j.id hinv.1]
            have hnej : ¬ ((⟨a, "created",
                "Job created for persona " ++ b ++ " explaining " ++ c,
                s.clock⟩ : JobUpdate).job_id = j.id) := by
              exact fun hcontra => hne j hj hcontra.symm
            rw [if_neg hnej]
            exact hinv.2 j hj
          · simp only [List.mem_singleton] at hj
            subst hj
            simp only [latestUpdate?]
            rw [latestUpdateIn_append_fresh s.updates _ _ hinv.1]
            simp
    next => exact hinv
  | updateStatus a b m r e =>
    simp only [applyOp, update_job_status]
    constructor
    · intro u hu
      rcases List.mem_append.mp hu with hu | hu
      · exact Nat.lt_trans (hinv.1 u hu) (Nat.lt_succ_self _)
      · simp only [List.mem_singleton] at hu
        subst hu
        exact Nat.lt_succ_self _
    · simp only [latestUpdate?]
      split
      · exact inv_update_generic s a b (m.getD ("Status changed to " ++ b))
          (fun j => { j with status := b, completed_at := some s.clock, result_url := r })
          (fun j => rfl) (fun j => rfl) hinv
      · split
        · exact inv_update_generic s a b (m.getD ("Status changed to " ++ b))
            (fun j => { j with status := b, error := e })
            (fun j => rfl) (fun j => rfl) hinv
        · exact inv_update_generic s a b (m.getD ("Status changed to " ++ b))
            (fun j => { j with status := b })
            (fun j => rfl) (fun j => rfl) hinv
  | markReply a =>
    simp only [applyOp, mark_job_reply_posted]
    constructor
    · exact hinv.1
    · intro j hj
      obtain ⟨j0, hj0, rfl⟩ := List.mem_map.mp hj
      by_cases hc : j0.id = a
      · simp only [if_pos hc, latestUpdate?]
        exact hinv.2 j0 hj0
      · simp only [if_neg hc, latestUpdate?]
        exact hinv.2 j0 hj0

/-- Helper: the consistency invariant is preserved by any sequence of db.py
operations. -/
theorem storeInv_runOps (ops : List Op) :
    ∀ s : Store, StoreInv s → StoreInv (runOps s ops) := by
  induction ops with
  | nil => intro s h; simpa [runOps] using h
  | cons op rest ih =>
    intro s h
    simpa [runOps] using ih (applyOp s op) (storeInv_applyOp s op h)

/-- C7: after any sequence of completed store operations starting from the
initialised database, every job row's status column equals the status of
that job's JobStatusUpdate with the greatest created_at.  Atomicity of the
pair (job mutation, inserted update) is by construction of the embedding:
create_job and update_job_status each are a single state transformer whose
one commit contains both writes with the same timestamp. -/
theorem job_status_matches_latest_update (ops : List Op) (j : JobRow)
    (h : j ∈ (runOps initStore ops).jobs) :
    (latestUpdate? (runOps initStore ops) j.id).map (fun u => u.status) = some j.status :=
  (storeInv_runOps ops initStore storeInv_init).2 j h

/-- C7 witness: a job created and then moved through processing to completed;
its row status agrees with its greatest-timestamp update. -/
theorem job_status_matches_latest_update_witness :
    (⟨"j1", "p1", "q1", "completed", 0, some 2, some "u", none, some "42", some "a1", false⟩ : JobRow)
      ∈ (runOps initStore
          [Op.createJob "j1" "p1" "q1" (some "42") (some "a1"),
           Op.updateStatus "j1" "processing" none none none,
           Op.updateStatus "j1" "completed" none (some "u") none]).jobs ∧
    (latestUpdate? (runOps initStore
          [Op.createJob "j1" "p1" "q1" (some "42") (some "a1"),
           Op.updateStatus "j1" "processing" none none none,
           Op.updateStatus "j1" "completed" none (some "u") none]) "j1").map
        (fun u => u.status) = some "completed" :=
  ⟨by decide, job_status_matches_latest_update
    [Op.createJob "j1" "p1" "q1" (some "42") (some "a1"),
     Op.updateStatus "j1" "processing" none none none,
     Op.updateStatus "j1" "completed" none (some "u") none]
    ⟨"j1", "p1", "q1", "completed", 0, some 2, some "u", none, some "42", some "a1", false⟩
    (by decide)⟩

end CelebX
